import Mathlib

/-!
Verification of the timing model of `detinfo::DetectorClocksStandard`
(lardataalg, `DetectorClocksStandard.h`).

Machine `double` values are embedded as exact rationals (`ℚ`): every property
checked here is an arithmetic identity of the timing model, stated at the
level of exact arithmetic.

The provider class `DetectorClocksStandard` is translated directly from
`src/lardataalg/DetectorInfo/DetectorClocksStandard.h`.  The clock value type
`ElecClock` and the body of `IsRightConfig` live in files that are not among
the sources, so they are modelled from the spec (see the doc comments).
-/

namespace Detinfo

/-- Modelled from the spec: the Clock Domain value type (`detinfo::ElecClock`,
whose header `ElecClock.h` is not among the sources).  Attributes per the
spec's data model: `frequency` (ticks per microsecond), `framePeriod`
(microseconds per frame), `time` (current reference instant, microseconds). -/
structure ElecClock where
  time : ℚ
  framePeriod : ℚ
  frequency : ℚ
deriving DecidableEq

namespace ElecClock

/-- Read accessor for the clock frequency (constant after construction). -/
def Frequency (c : ElecClock) : ℚ := c.frequency

/-- Read accessor for the frame period (constant after construction). -/
def FramePeriod (c : ElecClock) : ℚ := c.framePeriod

/-- Modelled from the spec: `tickPeriod = 1/frequency`. -/
def TickPeriod (c : ElecClock) : ℚ := 1 / c.frequency

/-- Modelled from the spec:
`Time(sample, frame) = frame * framePeriod + sample * tickPeriod`. -/
def Time (c : ElecClock) (sample frame : ℕ) : ℚ :=
  (frame : ℚ) * c.framePeriod + (sample : ℚ) * c.TickPeriod

/-- Modelled from the spec: `SetTime(t)` sets the domain's current reference
instant directly, leaving frequency and frame period unchanged. -/
def SetTime (c : ElecClock) (t : ℚ) : ElecClock := { c with time := t }

end ElecClock

/-- State of `detinfo::DetectorClocksStandard`: the member attributes of the
class in `DetectorClocksStandard.h` (`double` embedded as `ℚ`). -/
structure DetectorClocksStandard where
  fConfigName : List String
  fConfigValue : List ℚ
  fInheritClockConfig : Bool
  fTrigModuleName : String
  fG4RefCorrTrigModuleName : String
  fG4RefTime : ℚ
  fG4RefTimeDefault : ℚ
  fFramePeriod : ℚ
  fTPCClock : ElecClock
  fOpticalClock : ElecClock
  fTriggerClock : ElecClock
  fExternalClock : ElecClock
  fTriggerOffsetTPC : ℚ
  fTriggerTime : ℚ
  fBeamGateTime : ℚ
deriving DecidableEq

namespace DetectorClocksStandard

/-- `TriggerOffsetTPC()`: if the configured value is negative it is returned
directly (microseconds); otherwise it is a (possibly fractional) tick count,
returned as `-fTriggerOffsetTPC / fTPCClock.Frequency()`. -/
def TriggerOffsetTPC (d : DetectorClocksStandard) : ℚ :=
  if d.fTriggerOffsetTPC < 0 then d.fTriggerOffsetTPC
  else -d.fTriggerOffsetTPC / d.fTPCClock.Frequency

/-- `TriggerTime()`: trigger electronics clock time in microseconds. -/
def TriggerTime (d : DetectorClocksStandard) : ℚ := d.fTriggerTime

/-- `BeamGateTime()`: beam gate electronics clock time in microseconds. -/
def BeamGateTime (d : DetectorClocksStandard) : ℚ := d.fBeamGateTime

/-- `doTPCTime()`: implementation of `TPCTime()`. -/
def doTPCTime (d : DetectorClocksStandard) : ℚ :=
  d.TriggerTime + d.TriggerOffsetTPC

/-- `TPCTime()`: TPC electronics start time in electronics time. -/
def TPCTime (d : DetectorClocksStandard) : ℚ := d.doTPCTime

/-- `G4ToElecTime(g4_time)`: `g4_time * 1.e-3 - fG4RefTime`. -/
def G4ToElecTime (d : DetectorClocksStandard) (g4_time : ℚ) : ℚ :=
  g4_time * (1 / 1000) - d.fG4RefTime

/-- `SetTriggerTime(trig_time, beam_time)`: stores the trigger and beam gate
times and sets the time of the TPC, Optical and Trigger clocks to
`trig_time`; the External clock is not touched. -/
def SetTriggerTime (d : DetectorClocksStandard) (trig_time beam_time : ℚ) :
    DetectorClocksStandard :=
  { d with
    fTriggerTime := trig_time
    fBeamGateTime := beam_time
    fTPCClock := d.fTPCClock.SetTime trig_time
    fOpticalClock := d.fOpticalClock.SetTime trig_time
    fTriggerClock := d.fTriggerClock.SetTime trig_time }

/-- `RebaseG4RefTime(sim_trig_time)`:
`fG4RefTime = fG4RefTimeDefault - TriggerTime() + sim_trig_time`. -/
def RebaseG4RefTime (d : DetectorClocksStandard) (sim_trig_time : ℚ) :
    DetectorClocksStandard :=
  { d with fG4RefTime := d.fG4RefTimeDefault - d.TriggerTime + sim_trig_time }

/-- `ExternalClock(time)`: creates an External clock for a given time; the
frame period is taken from the External clock but the frequency from the
Trigger clock (the `@bug` documented in the header). -/
def ExternalClockAt (d : DetectorClocksStandard) (time : ℚ) : ElecClock :=
  { time := time
    framePeriod := d.fExternalClock.FramePeriod
    frequency := d.fTriggerClock.Frequency }

/-- `TPCTick2TrigTime(tick)`:
`fTPCClock.TickPeriod() * tick + TriggerOffsetTPC()`. -/
def TPCTick2TrigTime (d : DetectorClocksStandard) (tick : ℚ) : ℚ :=
  d.fTPCClock.TickPeriod * tick + d.TriggerOffsetTPC

/-- `TPCTick2BeamTime(tick)`:
`TPCTick2TrigTime(tick) + TriggerTime() - BeamGateTime()`. -/
def TPCTick2BeamTime (d : DetectorClocksStandard) (tick : ℚ) : ℚ :=
  d.TPCTick2TrigTime tick + d.TriggerTime - d.BeamGateTime

/-- `OpticalTick2TrigTime(tick, sample, frame)`:
`fOpticalClock.TickPeriod() * tick + fOpticalClock.Time(sample,frame) - TriggerTime()`. -/
def OpticalTick2TrigTime (d : DetectorClocksStandard) (tick : ℚ)
    (sample frame : ℕ) : ℚ :=
  d.fOpticalClock.TickPeriod * tick + d.fOpticalClock.Time sample frame
    - d.TriggerTime

/-- `OpticalTick2BeamTime(tick, sample, frame)`:
`fOpticalClock.TickPeriod() * tick + fOpticalClock.Time(sample,frame) - BeamGateTime()`. -/
def OpticalTick2BeamTime (d : DetectorClocksStandard) (tick : ℚ)
    (sample frame : ℕ) : ℚ :=
  d.fOpticalClock.TickPeriod * tick + d.fOpticalClock.Time sample frame
    - d.BeamGateTime

/-- `ExternalTick2TrigTime(tick, sample, frame)`:
`fExternalClock.TickPeriod() * tick + fExternalClock.Time(sample,frame) - TriggerTime()`. -/
def ExternalTick2TrigTime (d : DetectorClocksStandard) (tick : ℚ)
    (sample frame : ℕ) : ℚ :=
  d.fExternalClock.TickPeriod * tick + d.fExternalClock.Time sample frame
    - d.TriggerTime

/-- `ExternalTick2BeamTime(tick, sample, frame)`:
`fExternalClock.TickPeriod() * tick + fExternalClock.Time(sample,frame) - BeamGateTime()`. -/
def ExternalTick2BeamTime (d : DetectorClocksStandard) (tick : ℚ)
    (sample frame : ℕ) : ℚ :=
  d.fExternalClock.TickPeriod * tick + d.fExternalClock.Time sample frame
    - d.BeamGateTime

/-- `doTime2Tick(time)`: implementation of `Time2Tick()`:
`(time - doTPCTime()) / fTPCClock.TickPeriod()`. -/
def doTime2Tick (d : DetectorClocksStandard) (time : ℚ) : ℚ :=
  (time - d.doTPCTime) / d.fTPCClock.TickPeriod

/-- `Time2Tick(time)`: the specified electronics time in TDC electronics
ticks. -/
def Time2Tick (d : DetectorClocksStandard) (time : ℚ) : ℚ :=
  d.doTime2Tick time

/-- Modelled from the spec: `IsRightConfig(candidateConfig)` "compares the
provider's persisted name-to-value mapping against a candidate
configuration's equivalent mapping, entry by entry, requiring exact equality
for every named item the provider recorded at construction time".  The
implementation file of `DetectorClocksStandard` is not among the sources; the
candidate configuration is abstracted as a partial name-to-value lookup. -/
def IsRightConfig (d : DetectorClocksStandard) (ps : String → Option ℚ) :
    Bool :=
  (d.fConfigName.zip d.fConfigValue).all fun p => ps p.1 == some p.2

end DetectorClocksStandard

/-- A 2 MHz clock with a 1.6 ms frame, used as concrete witness input. -/
def clk2MHz : ElecClock :=
  { time := 0, framePeriod := 1600, frequency := 2 }

/-- A concrete provider state used as witness input: trigger offset
configured as `-1600.0` microseconds, 2 MHz clocks, trigger time `100.0`,
beam gate time `50.0`. -/
def sampleProvider : DetectorClocksStandard :=
  { fConfigName := ["G4RefTime", "TriggerOffsetTPC", "FramePeriod"]
    fConfigValue := [3, -1600, 1600]
    fInheritClockConfig := false
    fTrigModuleName := "daq"
    fG4RefCorrTrigModuleName := ""
    fG4RefTime := 3
    fG4RefTimeDefault := 1
    fFramePeriod := 1600
    fTPCClock := clk2MHz
    fOpticalClock := clk2MHz
    fTriggerClock := clk2MHz
    fExternalClock := clk2MHz
    fTriggerOffsetTPC := -1600
    fTriggerTime := 100
    fBeamGateTime := 50 }

/-- `sampleProvider` with the trigger offset configured in tick units:
`3200.0` ticks at 2 MHz, the encoding equivalent to `-1600.0` microseconds. -/
def sampleProviderTicks : DetectorClocksStandard :=
  { sampleProvider with fTriggerOffsetTPC := 3200 }

/-- A candidate configuration lookup matching `sampleProvider`'s recorded
name/value pairs exactly. -/
def psGood : String → Option ℚ := fun n =>
  if n = "G4RefTime" then some 3
  else if n = "TriggerOffsetTPC" then some (-1600)
  else if n = "FramePeriod" then some 1600
  else none

/-- A candidate configuration lookup differing from `sampleProvider`'s record
in a single value: `FramePeriod` is `1000` instead of `1600`. -/
def psBadFrame : String → Option ℚ := fun n =>
  if n = "FramePeriod" then some 1000 else psGood n

/-- C1: `TriggerOffsetTPC()` interprets the single configured signed value in
two modes: a negative configured value (microseconds) is returned directly,
and a non-negative configured value (ticks, possibly fractional) is returned
as minus the value divided by the TPC clock frequency; configuring `3200.0`
ticks with a 2 MHz TPC clock yields the same `TPCTime()` as configuring
`-1600.0` microseconds, given equal trigger times. -/
theorem C1_triggerOffsetTPC_dual_mode
    (d d1 d2 : DetectorClocksStandard)
    (h1 : d1.fTriggerOffsetTPC = 3200) (h1f : d1.fTPCClock.frequency = 2)
    (h2 : d2.fTriggerOffsetTPC = -1600)
    (ht : d1.fTriggerTime = d2.fTriggerTime) :
    (d.fTriggerOffsetTPC < 0 →
      d.TriggerOffsetTPC = d.fTriggerOffsetTPC) ∧
    (0 ≤ d.fTriggerOffsetTPC →
      d.TriggerOffsetTPC = -d.fTriggerOffsetTPC / d.fTPCClock.Frequency) ∧
    d1.TPCTime = d2.TPCTime := by
  refine ⟨fun h => ?_, fun h => ?_, ?_⟩
  · simp [DetectorClocksStandard.TriggerOffsetTPC, h]
  · simp [DetectorClocksStandard.TriggerOffsetTPC, not_lt.mpr h]
  · unfold DetectorClocksStandard.TPCTime DetectorClocksStandard.doTPCTime
      DetectorClocksStandard.TriggerTime DetectorClocksStandard.TriggerOffsetTPC
      ElecClock.Frequency
    rw [h1, h1f, h2, ht]
    norm_num

/-- Witness for C1: the concrete providers `sampleProviderTicks` (offset
`3200.0` ticks at 2 MHz) and `sampleProvider` (offset `-1600.0`
microseconds) share the same `TPCTime()`. -/
theorem C1_triggerOffsetTPC_dual_mode_witness :
    (sampleProvider.fTriggerOffsetTPC < 0 →
      sampleProvider.TriggerOffsetTPC = sampleProvider.fTriggerOffsetTPC) ∧
    (0 ≤ sampleProvider.fTriggerOffsetTPC →
      sampleProvider.TriggerOffsetTPC =
        -sampleProvider.fTriggerOffsetTPC / sampleProvider.fTPCClock.Frequency) ∧
    sampleProviderTicks.TPCTime = sampleProvider.TPCTime :=
  C1_triggerOffsetTPC_dual_mode sampleProvider sampleProviderTicks sampleProvider
    rfl rfl rfl rfl

/-- C2: for every provider state `TPCTime()` equals
`TriggerTime() + TriggerOffsetTPC()`, and with the trigger offset configured
as `-1600.0` it equals `TriggerTime() - 1600.0`. -/
theorem C2_tpcTime_is_triggerTime_plus_offset (d : DetectorClocksStandard) :
    d.TPCTime = d.TriggerTime + d.TriggerOffsetTPC ∧
    (d.fTriggerOffsetTPC = -1600 → d.TPCTime = d.TriggerTime - 1600) := by
  refine ⟨rfl, fun h => ?_⟩
  unfold DetectorClocksStandard.TPCTime DetectorClocksStandard.doTPCTime
    DetectorClocksStandard.TriggerOffsetTPC
  rw [h]
  norm_num
  ring

/-- Witness for C2 at `sampleProvider`, whose configured offset is
`-1600.0`. -/
theorem C2_tpcTime_is_triggerTime_plus_offset_witness :
    sampleProvider.fTriggerOffsetTPC = -1600 ∧
    sampleProvider.TPCTime =
      sampleProvider.TriggerTime + sampleProvider.TriggerOffsetTPC ∧
    sampleProvider.TPCTime = sampleProvider.TriggerTime - 1600 :=
  ⟨rfl, (C2_tpcTime_is_triggerTime_plus_offset sampleProvider).1,
    (C2_tpcTime_is_triggerTime_plus_offset sampleProvider).2 rfl⟩

/-- C3: `Time2Tick(t) = (t - TPCTime()) / tpcTickPeriod`, and when the TPC
tick period is nonzero, `Time2Tick(TPCTime() + k * tpcTickPeriod) = k` for
every integer `k`. -/
theorem C3_time2Tick_roundtrip (d : DetectorClocksStandard) (t : ℚ) (k : ℤ)
    (h : d.fTPCClock.TickPeriod ≠ 0) :
    d.Time2Tick t = (t - d.TPCTime) / d.fTPCClock.TickPeriod ∧
    d.Time2Tick (d.TPCTime + (k : ℚ) * d.fTPCClock.TickPeriod) = (k : ℚ) := by
  refine ⟨rfl, ?_⟩
  unfold DetectorClocksStandard.Time2Tick DetectorClocksStandard.doTime2Tick
    DetectorClocksStandard.TPCTime
  field_simp

/-- Witness for C3: the round trip at `sampleProvider` (tick period `1/2`),
`t = 5`, `k = 7`. -/
theorem C3_time2Tick_roundtrip_witness :
    sampleProvider.fTPCClock.TickPeriod ≠ 0 ∧
    sampleProvider.Time2Tick 5 =
      (5 - sampleProvider.TPCTime) / sampleProvider.fTPCClock.TickPeriod ∧
    sampleProvider.Time2Tick
        (sampleProvider.TPCTime +
          ((7 : ℤ) : ℚ) * sampleProvider.fTPCClock.TickPeriod) =
      ((7 : ℤ) : ℚ) := by
  have h : sampleProvider.fTPCClock.TickPeriod ≠ 0 := by
    norm_num [ElecClock.TickPeriod, sampleProvider, clk2MHz]
  exact ⟨h, (C3_time2Tick_roundtrip sampleProvider 5 7 h).1,
    (C3_time2Tick_roundtrip sampleProvider 5 7 h).2⟩

/-- C4: `G4ToElecTime(g4_time) = g4_time * 1e-3 - fG4RefTime` for every
input and provider state; with `g4RefTime = 3.0`, input `5000` gives
`2.0`. -/
theorem C4_g4ToElecTime (d : DetectorClocksStandard) (t : ℚ) :
    d.G4ToElecTime t = t * (1 / 1000) - d.fG4RefTime ∧
    (d.fG4RefTime = 3 → d.G4ToElecTime 5000 = 2) := by
  refine ⟨rfl, fun h => ?_⟩
  unfold DetectorClocksStandard.G4ToElecTime
  rw [h]
  norm_num

/-- Witness for C4 at `sampleProvider` (`fG4RefTime = 3`) and input
`5000`. -/
theorem C4_g4ToElecTime_witness :
    sampleProvider.fG4RefTime = 3 ∧
    sampleProvider.G4ToElecTime 5000 =
      5000 * (1 / 1000) - sampleProvider.fG4RefTime ∧
    sampleProvider.G4ToElecTime 5000 = 2 :=
  ⟨rfl, (C4_g4ToElecTime sampleProvider 5000).1,
    (C4_g4ToElecTime sampleProvider 5000).2 rfl⟩

/-- C5: `SetTriggerTime(trig_time, beam_time)` stores both values, sets the
reference time of the TPC, Optical and Trigger clocks to `trig_time` leaving
their frequency and frame period unchanged, and leaves the External clock's
state unchanged. -/
theorem C5_setTriggerTime_effect (d : DetectorClocksStandard) (a b : ℚ) :
    (d.SetTriggerTime a b).TriggerTime = a ∧
    (d.SetTriggerTime a b).BeamGateTime = b ∧
    (d.SetTriggerTime a b).fTPCClock = d.fTPCClock.SetTime a ∧
    (d.SetTriggerTime a b).fOpticalClock = d.fOpticalClock.SetTime a ∧
    (d.SetTriggerTime a b).fTriggerClock = d.fTriggerClock.SetTime a ∧
    (d.SetTriggerTime a b).fTPCClock.time = a ∧
    (d.SetTriggerTime a b).fExternalClock = d.fExternalClock :=
  ⟨rfl, rfl, rfl, rfl, rfl, rfl, rfl⟩

/-- C6: `RebaseG4RefTime(sim_trig_time)` sets `fG4RefTime` to
`fG4RefTimeDefault - TriggerTime() + sim_trig_time`, computed from the
immutable default; it is idempotent when the trigger time is unchanged; with
default `1.0`, trigger time `100.0` and input `90.0` the result is `-9.0`. -/
theorem C6_rebaseG4RefTime (d : DetectorClocksStandard) (s : ℚ) :
    (d.RebaseG4RefTime s).fG4RefTime =
      d.fG4RefTimeDefault - d.TriggerTime + s ∧
    (d.RebaseG4RefTime s).RebaseG4RefTime s = d.RebaseG4RefTime s ∧
    (d.fG4RefTimeDefault = 1 → d.TriggerTime = 100 →
      (d.RebaseG4RefTime 90).fG4RefTime = -9) := by
  refine ⟨rfl, rfl, fun h1 h2 => ?_⟩
  show d.fG4RefTimeDefault - d.TriggerTime + 90 = -9
  rw [h1, h2]
  norm_num

/-- Witness for C6 at `sampleProvider` (`fG4RefTimeDefault = 1`,
`TriggerTime() = 100`), input `90`. -/
theorem C6_rebaseG4RefTime_witness :
    sampleProvider.fG4RefTimeDefault = 1 ∧
    sampleProvider.TriggerTime = 100 ∧
    (sampleProvider.RebaseG4RefTime 90).fG4RefTime = -9 :=
  ⟨rfl, rfl, (C6_rebaseG4RefTime sampleProvider 90).2.2 rfl rfl⟩

/-- C7: for each waveform-sampled domain (TPC, Optical, External) and all
tick/sample/frame arguments, `Tick2BeamTime` equals `Tick2TrigTime` plus
`TriggerTime()` minus `BeamGateTime()`. -/
theorem C7_tick2BeamTime_vs_tick2TrigTime (d : DetectorClocksStandard)
    (tick : ℚ) (s f : ℕ) :
    d.TPCTick2BeamTime tick =
      d.TPCTick2TrigTime tick + d.TriggerTime - d.BeamGateTime ∧
    d.OpticalTick2BeamTime tick s f =
      d.OpticalTick2TrigTime tick s f + d.TriggerTime - d.BeamGateTime ∧
    d.ExternalTick2BeamTime tick s f =
      d.ExternalTick2TrigTime tick s f + d.TriggerTime - d.BeamGateTime := by
  refine ⟨rfl, ?_, ?_⟩
  · unfold DetectorClocksStandard.OpticalTick2BeamTime
      DetectorClocksStandard.OpticalTick2TrigTime
    ring
  · unfold DetectorClocksStandard.ExternalTick2BeamTime
      DetectorClocksStandard.ExternalTick2TrigTime
    ring

/-- C8: `IsRightConfig(candidateConfig)` returns true exactly when every
recorded name/value pair matches the candidate's value for that name, and a
candidate with a single differing recorded value makes it return false. -/
theorem C8_isRightConfig_exact_match (d : DetectorClocksStandard)
    (ps : String → Option ℚ) :
    (d.IsRightConfig ps = true ↔
      ∀ p ∈ d.fConfigName.zip d.fConfigValue, ps p.1 = some p.2) ∧
    (∀ p ∈ d.fConfigName.zip d.fConfigValue, ∀ v,
      ps p.1 = some v → v ≠ p.2 → d.IsRightConfig ps = false) := by
  have hiff : d.IsRightConfig ps = true ↔
      ∀ p ∈ d.fConfigName.zip d.fConfigValue, ps p.1 = some p.2 := by
    simp [DetectorClocksStandard.IsRightConfig, List.all_eq_true]
  refine ⟨hiff, fun p hp v hv hne => ?_⟩
  rw [← Bool.not_eq_true]
  intro htrue
  have hmatch := hiff.mp htrue p hp
  rw [hv] at hmatch
  exact hne (Option.some.inj hmatch)

/-- Witness for C8: a matching candidate yields true for `sampleProvider`; a
candidate with only `FramePeriod` changed (from `1600` to `1000`) yields
false. -/
theorem C8_isRightConfig_exact_match_witness :
    sampleProvider.IsRightConfig psGood = true ∧
    sampleProvider.IsRightConfig psBadFrame = false :=
  ⟨(C8_isRightConfig_exact_match sampleProvider psGood).1.mpr (by decide),
    (C8_isRightConfig_exact_match sampleProvider psBadFrame).2
      ⟨"FramePeriod", 1600⟩ (by decide) 1000 (by decide) (by decide)⟩

/-- C9: the time-parameterized accessor `ExternalClock(time)` returns a
clock whose frequency is the Trigger clock's frequency, whose frame period
is the External clock's frame period, and whose reference time is the given
time. -/
theorem C9_externalClockAt_borrows_trigger_frequency
    (d : DetectorClocksStandard) (t : ℚ) :
    (d.ExternalClockAt t).Frequency = d.fTriggerClock.Frequency ∧
    (d.ExternalClockAt t).FramePeriod = d.fExternalClock.FramePeriod ∧
    (d.ExternalClockAt t).time = t :=
  ⟨rfl, rfl, rfl⟩

/-- C10: `TPCTick2TrigTime(tick)` equals
`tick * tpcTickPeriod + TriggerOffsetTPC()` and does not depend on the
per-event trigger or beam-gate times: states agreeing on the TPC clock
frequency and frame period and on the configured trigger offset give equal
results, and a `SetTriggerTime` call leaves it unchanged — while
`OpticalTick2TrigTime` shifts by `TriggerTime() - trig_time` under the same
call. -/
theorem C10_tpcTick2TrigTime_independent_of_trigger
    (d d1 d2 : DetectorClocksStandard) (a b tick : ℚ) (s f : ℕ)
    (hfreq : d1.fTPCClock.frequency = d2.fTPCClock.frequency)
    (hfp : d1.fTPCClock.framePeriod = d2.fTPCClock.framePeriod)
    (ho : d1.fTriggerOffsetTPC = d2.fTriggerOffsetTPC) :
    d.TPCTick2TrigTime tick =
      tick * d.fTPCClock.TickPeriod + d.TriggerOffsetTPC ∧
    d1.TPCTick2TrigTime tick = d2.TPCTick2TrigTime tick ∧
    (d.SetTriggerTime a b).TPCTick2TrigTime tick = d.TPCTick2TrigTime tick ∧
    (d.SetTriggerTime a b).OpticalTick2TrigTime tick s f =
      d.OpticalTick2TrigTime tick s f + d.TriggerTime - a := by
  refine ⟨?_, ?_, rfl, ?_⟩
  · unfold DetectorClocksStandard.TPCTick2TrigTime
    ring
  · unfold DetectorClocksStandard.TPCTick2TrigTime
      DetectorClocksStandard.TriggerOffsetTPC ElecClock.TickPeriod
      ElecClock.Frequency
    rw [hfreq, ho]
  · simp only [DetectorClocksStandard.OpticalTick2TrigTime,
      DetectorClocksStandard.SetTriggerTime, DetectorClocksStandard.TriggerTime,
      ElecClock.SetTime, ElecClock.TickPeriod, ElecClock.Time]
    ring

/-- Witness for C10: `sampleProvider` before and after
`SetTriggerTime(7, 8)` (states with different trigger and beam-gate times)
give the same `TPCTick2TrigTime` at tick `42`. -/
theorem C10_tpcTick2TrigTime_independent_of_trigger_witness :
    sampleProvider.TPCTick2TrigTime 42 =
      42 * sampleProvider.fTPCClock.TickPeriod +
        sampleProvider.TriggerOffsetTPC ∧
    sampleProvider.TPCTick2TrigTime 42 =
      (sampleProvider.SetTriggerTime 7 8).TPCTick2TrigTime 42 ∧
    (sampleProvider.SetTriggerTime 7 8).TPCTick2TrigTime 42 =
      sampleProvider.TPCTick2TrigTime 42 ∧
    (sampleProvider.SetTriggerTime 7 8).OpticalTick2TrigTime 42 3 2 =
      sampleProvider.OpticalTick2TrigTime 42 3 2 +
        sampleProvider.TriggerTime - 7 :=
  C10_tpcTick2TrigTime_independent_of_trigger sampleProvider sampleProvider
    (sampleProvider.SetTriggerTime 7 8) 7 8 42 3 2 rfl rfl rfl

end Detinfo
